import Mathlib

/-!
Verification development for the credential update session core
(src/server/lib/src/idm/credupdatesession.rs).

The Rust module is embedded shallowly: machine state (the session store and
the account database) is passed explicitly, fallible operations return
`Except OperationError`, and the external collaborators (the authenticated
encryption sealer, the zxcvbn estimator, the webauthn engine, the TOTP
code computation and the random generators) are either modelled as small
inductive outcome types or passed in as explicit function parameters,
since the embedded control flow never inspects their internals.

Durations and instants are seconds as `Nat` (the source uses
`std::time::Duration` with a caller-supplied `now`). Uuids are `Nat`;
`uuid_from_duration` keeps only the time-ordered component, which is the
only property the source relies on (ordered-map pruning).
-/

namespace CredUpdate

abbrev Uuid := Nat
abbrev Instant := Nat

/-- Constant from credupdatesession.rs line 28: hard session TTL, 900 s. -/
def MAXIMUM_CRED_UPDATE_TTL : Nat := 900

/-- Constant from credupdatesession.rs line 30: default intent TTL, 1 h. -/
def DEFAULT_INTENT_TTL : Nat := 3600

/-- Constant from credupdatesession.rs line 32: maximum intent TTL, 1 day. -/
def MAXIMUM_INTENT_TTL : Nat := 86400

/-- Constant from credupdatesession.rs line 34: minimum intent TTL, 5 min. -/
def MINIMUM_INTENT_TTL : Nat := 300

/-- Minimum password length used by check_password_quality (PW_MIN_LENGTH). -/
def PW_MIN_LENGTH : Nat := 10

/-- Rust Duration.clamp, on Nat seconds. -/
def clampNat (x lo hi : Nat) : Nat := max lo (min x hi)

instance {ε α : Type} [DecidableEq ε] [DecidableEq α] :
    DecidableEq (Except ε α)
  | .ok a, .ok b => decidable_of_iff (a = b) (by simp)
  | .error a, .error b => decidable_of_iff (a = b) (by simp)
  | .ok _, .error _ => isFalse (by simp)
  | .error _, .ok _ => isFalse (by simp)

inductive TotpAlgo
  | Sha1
  | Sha256
deriving DecidableEq, Repr

/-- Modelled from the spec: the Totp type lives in the credential/totp
module (not under src/). We keep the secret and the declared algorithm;
code verification is an external computation, passed to the operations
that need it as a `TotpVerify` parameter. -/
structure Totp where
  secret : Nat
  algo : TotpAlgo
deriving DecidableEq, Repr

/-- Modelled from the spec: downgrading a TOTP secret to SHA-1 keeps the
secret and changes only the declared algorithm. -/
def Totp.downgrade_to_legacy (t : Totp) : Totp := { t with algo := .Sha1 }

/-- External TOTP code verification: (token, challenge, now) to Bool. -/
abbrev TotpVerify := Totp → Nat → Instant → Bool

/-- Modelled from the spec: the primary Credential type (credential module,
not under src/): a password, attached TOTPs by label, optional backup
codes. Security keys are not touched by this module and are omitted. -/
structure Credential where
  password : String
  totps : List (String × Totp)
  backup_codes : Option (List String)
deriving DecidableEq, Repr

/-- Modelled from the spec: a fresh password-only credential. -/
def Credential.new_password_only (pw : String) : Credential :=
  { password := pw, totps := [], backup_codes := none }

/-- Modelled from the spec: replacing the password on an existing primary
credential preserves any attached TOTP and backup codes. -/
def Credential.set_password (c : Credential) (pw : String) : Credential :=
  { c with password := pw }

/-- Modelled from the spec: attach (upsert) a TOTP under a label. -/
def Credential.append_totp (c : Credential) (label : String) (t : Totp) : Credential :=
  { c with totps := c.totps.filter (fun kv => kv.1 ≠ label) ++ [(label, t)] }

/-- Modelled from the spec: remove the named TOTP; if no TOTP remains the
attached backup codes are removed as a consequence. -/
def Credential.remove_totp (c : Credential) (label : String) : Credential :=
  let rest := c.totps.filter (fun kv => kv.1 ≠ label)
  { c with totps := rest
         , backup_codes := if rest.isEmpty then none else c.backup_codes }

/-- Modelled from the spec: attaching backup codes fails when the
credential does not yet have MFA (no TOTP attached). -/
def Credential.update_backup_code (c : Credential) (codes : List String) :
    Except Unit Credential :=
  if c.totps.isEmpty then .error ()
  else .ok { c with backup_codes := some codes }

/-- Modelled from the spec: detaching backup codes fails when none are
present (MFA not enabled on the credential). -/
def Credential.remove_backup_code (c : Credential) : Except Unit Credential :=
  match c.backup_codes with
  | none => .error ()
  | some _ => .ok { c with backup_codes := none }

inductive CUExtPortal
  | None
  | Hidden
  | Some (url : String)
deriving DecidableEq, Repr

inductive PasswordFeedback
  | TooShort (sz : Nat)
  | BadListed
  | Suggestion (s : String)
deriving DecidableEq, Repr

inductive OperationError
  | AccessDenied
  | NotAuthorised
  | InvalidState
  | InvalidEntryState
  | InvalidRequestState
  | SessionExpired
  | PasswordQuality (feedback : List PasswordFeedback)
  | Wait (until_instant : Instant)
  | Webauthn
  | SerdeJsonError
  | NoMatchingEntries
deriving DecidableEq, Repr

/-- Permission triple computed once at session or intent birth
(value module CredUpdateSessionPerms). -/
structure CredUpdateSessionPerms where
  ext_cred_portal_can_view : Bool
  primary_can_edit : Bool
  passkeys_can_edit : Bool
deriving DecidableEq, Repr

/-- Intent grant state persisted on the account entry
(value module IntentTokenState). -/
inductive IntentTokenState
  | Valid (max_ttl : Instant) (perms : CredUpdateSessionPerms)
  | InProgress (max_ttl : Instant) (perms : CredUpdateSessionPerms)
      (session_id : Uuid) (session_ttl : Instant)
  | Consumed (max_ttl : Instant)
deriving DecidableEq, Repr

/-- Expiry instant carried by a grant in any of its three states
(the match at credupdatesession.rs lines 587-595). -/
def IntentTokenState.the_max_ttl : IntentTokenState → Instant
  | .Valid max_ttl _ => max_ttl
  | .InProgress max_ttl _ _ _ => max_ttl
  | .Consumed max_ttl => max_ttl

/-- Account snapshot (idm/account.rs, external to this module): the
attributes the session core reads. Passkey material is opaque (Nat).
The sync_credential_portal field holds the SyncCredentialPortal url when
this entry is looked up as a sync parent. -/
structure Account where
  uuid : Uuid
  name : String
  spn : String
  displayname : String
  primary : Option Credential
  passkeys : List (Uuid × String × Nat)
  sync_parent_uuid : Option Uuid
  sync_credential_portal : Option String
  credential_update_intent_tokens : List (String × IntentTokenState)
deriving DecidableEq, Repr

/-- Modelled from the spec: zxcvbn related-input hints derived from the
account (name, display name, SPN). -/
def Account.related_inputs (a : Account) : List String :=
  [a.name, a.displayname, a.spn]

/-- Lookup of a grant by intent id in the account ledger (BTreeMap get). -/
def tok_lookup (l : List (String × IntentTokenState)) (k : String) :
    Option IntentTokenState :=
  match l with
  | [] => none
  | (k0, v) :: rest => if k0 = k then some v else tok_lookup rest k

/-- MfaRegState: the per-session MFA registration sub-state. Note there is
no BackupCodes constructor here: that variant exists only on the status
projection type. The webauthn challenge and registration state are opaque. -/
inductive MfaRegState
  | None
  | TotpInit (token : Totp)
  | TotpTryAgain (token : Totp)
  | TotpInvalidSha1 (token : Totp) (token_sha1 : Totp) (label : String)
  | Passkey (ccr : Nat) (reg_state : Nat)
deriving DecidableEq, Repr

/-- CredentialUpdateSession: the editable session record. -/
structure CredentialUpdateSession where
  issuer : String
  account : Account
  intent_token_id : Option String
  ext_cred_portal : CUExtPortal
  primary : Option Credential
  primary_can_edit : Bool
  passkeys : List (Uuid × String × Nat)
  passkeys_can_edit : Bool
  mfaregstate : MfaRegState
deriving DecidableEq, Repr

/-- CredentialUpdateSession::can_commit - currently always true (the
policy check in the source is commented out). -/
def CredentialUpdateSession.can_commit (_s : CredentialUpdateSession) : Bool :=
  true

/-- Modelled from the spec: the masked credential summary produced by the
credential module for the status projection. -/
inductive CredentialDetail
  | Password
  | PasswordMfa (totp_labels : List String) (backup_code_count : Nat)
deriving DecidableEq, Repr

/-- Modelled from the spec: credential to masked summary. -/
def Credential.into_detail (c : Credential) : CredentialDetail :=
  if c.totps.isEmpty then .Password
  else .PasswordMfa (c.totps.map Prod.fst)
    ((c.backup_codes.getD []).length)

/-- Totp::to_proto - client-consumable TOTP secret descriptor built from
the account name and issuer. -/
structure TotpSecret where
  secret : Nat
  algo : TotpAlgo
  accountname : String
  issuer : String
deriving DecidableEq, Repr

def Totp.to_proto (t : Totp) (accountname issuer : String) : TotpSecret :=
  { secret := t.secret, algo := t.algo, accountname, issuer }

/-- MfaRegStateStatus: the client-facing view of the sub-state. This is
the only place a BackupCodes variant exists. -/
inductive MfaRegStateStatus
  | None
  | TotpCheck (s : TotpSecret)
  | TotpTryAgain
  | TotpInvalidSha1
  | BackupCodes (codes : List String)
  | Passkey (ccr : Nat)
deriving DecidableEq, Repr

/-- CredentialUpdateSessionStatus - the status record returned to clients. -/
structure CredentialUpdateSessionStatus where
  spn : String
  displayname : String
  ext_cred_portal : CUExtPortal
  mfaregstate : MfaRegStateStatus
  can_commit : Bool
  primary : Option CredentialDetail
  primary_can_edit : Bool
  passkeys : List (Uuid × String)
  passkeys_can_edit : Bool
deriving DecidableEq, Repr

/-- From (and) CredentialUpdateSession for CredentialUpdateSessionStatus:
the status projection (credupdatesession.rs lines 240-269). -/
def status_from_session (session : CredentialUpdateSession) :
    CredentialUpdateSessionStatus :=
  { spn := session.account.spn
  , displayname := session.account.displayname
  , ext_cred_portal := session.ext_cred_portal
  , can_commit := session.can_commit
  , primary := session.primary.map Credential.into_detail
  , primary_can_edit := session.primary_can_edit
  , passkeys := session.passkeys.map (fun kv => (kv.1, kv.2.1))
  , passkeys_can_edit := session.passkeys_can_edit
  , mfaregstate :=
      match session.mfaregstate with
      | .None => .None
      | .TotpInit token =>
          .TotpCheck (token.to_proto session.account.name session.issuer)
      | .TotpTryAgain _ => .TotpTryAgain
      | .TotpInvalidSha1 _ _ _ => .TotpInvalidSha1
      | .Passkey r _ => .Passkey r }

/-- Plaintext payload of the sealed session token. -/
structure CredentialUpdateSessionTokenInner where
  sessionid : Uuid
  max_ttl : Instant
deriving DecidableEq, Repr

/-- Outcome space of the authenticated decryption: either the ciphertext
is rejected outright, or it decrypts to bytes which may or may not
deserialise to a token payload. -/
inductive TokenCipher
  | undecodable
  | decoded (inner : CredentialUpdateSessionTokenInner)
deriving DecidableEq, Repr

inductive SealedToken
  | garbage
  | sealed (payload : TokenCipher)
deriving DecidableEq, Repr

/-- Authenticated decryption of the sealed token (external sealer):
fails exactly on tampered/garbage ciphertext. -/
def token_decrypt : SealedToken → Option TokenCipher
  | .garbage => none
  | .sealed p => some p

/-- Deserialisation of the decrypted bytes (serde_json::from_slice). -/
def token_deserialise : TokenCipher → Option CredentialUpdateSessionTokenInner
  | .undecodable => none
  | .decoded inner => some inner

/-- Decrypt-then-decode chain shared by credential_update_commit_common
(lines 845-858) and get_current_session (lines 1089-1102): a decryption
failure maps to SessionExpired, a deserialisation failure maps to
SerdeJsonError. -/
def open_session_token (cust : SealedToken) :
    Except OperationError CredentialUpdateSessionTokenInner :=
  match token_decrypt cust with
  | none => .error .SessionExpired
  | some data =>
    match token_deserialise data with
    | none => .error .SerdeJsonError
    | some inner => .ok inner

/-- Session store: session id to (locked?, record). The Bool is the
transient mutex state of the per-record handle; try_lock fails when it
is set. -/
abbrev SessionStore := List (Uuid × Bool × CredentialUpdateSession)

def store_get (st : SessionStore) (id : Uuid) :
    Option (Bool × CredentialUpdateSession) :=
  match st with
  | [] => none
  | (id0, l, s) :: rest => if id0 = id then some (l, s) else store_get rest id

def store_remove (st : SessionStore) (id : Uuid) :
    Option ((Bool × CredentialUpdateSession) × SessionStore) :=
  match store_get st id with
  | none => none
  | some e => some (e, st.filter (fun kv => kv.1 ≠ id))

def store_set (st : SessionStore) (id : Uuid)
    (s : CredentialUpdateSession) : SessionStore :=
  st.map (fun kv => if kv.1 = id then (id, kv.2.1, s) else kv)

/-- utils::uuid_from_duration - a UUID whose ordering matches the instant.
We keep the time-ordered component only; the server id does not take part
in the ordering the pruning relies on. -/
def uuid_from_duration (d : Instant) (_sid : Nat) : Uuid := d

/-- Account database (the query server's entry store restricted to
accounts, which is all this module touches). -/
abbrev Db := List Account

def internal_search_uuid (db : Db) (u : Uuid) : Option Account :=
  match db with
  | [] => none
  | a :: rest => if a.uuid = u then some a else internal_search_uuid rest u

/-- internal_search with an Eq filter on CredentialUpdateIntentToken:
every entry whose ledger holds the intent id. -/
def internal_search_intent (db : Db) (intent_id : String) : List Account :=
  db.filter (fun a => (tok_lookup a.credential_update_intent_tokens intent_id).isSome)

/-- Modification list entries this module emits (Modify with the
Attribute and Value constructors it uses flattened in). -/
inductive Modify
  | PurgedPrimary
  | PresentPrimary (cred : Credential)
  | PurgedPasskeys
  | PresentPasskey (uuid : Uuid) (tag : String) (pk : Nat)
  | RemovedIntentToken (intent_id : String)
  | PresentIntentToken (intent_id : String) (state : IntentTokenState)
deriving DecidableEq, Repr

def apply_modify (a : Account) : Modify → Account
  | .PurgedPrimary => { a with primary := none }
  | .PresentPrimary c => { a with primary := some c }
  | .PurgedPasskeys => { a with passkeys := [] }
  | .PresentPasskey u t p => { a with passkeys := a.passkeys ++ [(u, t, p)] }
  | .RemovedIntentToken id =>
      { a with credential_update_intent_tokens :=
          a.credential_update_intent_tokens.filter (fun kv => kv.1 ≠ id) }
  | .PresentIntentToken id st =>
      { a with credential_update_intent_tokens :=
          a.credential_update_intent_tokens ++ [(id, st)] }

def apply_modlist (a : Account) (ml : List Modify) : Account :=
  ml.foldl apply_modify a

/-- Auxiliary classifier: does a modification touch the intent-token
attribute (as opposed to the credential attributes)? -/
def Modify.is_intent_mod : Modify → Bool
  | .RemovedIntentToken _ => true
  | .PresentIntentToken _ _ => true
  | _ => false

/-- internal_modify with a Uuid Eq filter: apply the modlist to the
matching entry. -/
def internal_modify (db : Db) (u : Uuid) (ml : List Modify) : Db :=
  db.map (fun a => if a.uuid = u then apply_modlist a ml else a)

/-- Write-transaction state: the account store, the shared session store,
the server id and the domain display name (the issuer string). -/
structure IdmServerState where
  db : Db
  cred_update_sessions : SessionStore
  sid : Nat
  domain_display_name : String
deriving DecidableEq, Repr

/-- expire_credential_update_sessions (lines 822-830): ordered-map split
removing every session whose identifier encodes an expiry before ct. -/
def expire_credential_update_sessions (sessions : SessionStore)
    (ct : Instant) (sid : Nat) : SessionStore :=
  sessions.filter (fun kv => ¬ kv.1 < uuid_from_duration ct sid)

/-- create_credupdate_session (lines 461-547). The account snapshot is
stashed, the editable primary and passkeys are copied iff the matching
permission bit is set, the external portal descriptor is resolved once,
the token is sealed, old sessions are pruned and the record is stored.
Operation errors abort the surrounding write transaction, so an error
result carries no state. -/
def create_credupdate_session (st : IdmServerState) (sessionid : Uuid)
    (intent_token_id : Option String) (account : Account)
    (perms : CredUpdateSessionPerms) (ct : Instant) :
    Except OperationError
      (SealedToken × CredentialUpdateSessionStatus × IdmServerState) :=
  let primary := if perms.primary_can_edit then account.primary else none
  let passkeys := if perms.passkeys_can_edit then account.passkeys else []
  let portal_result : Except OperationError CUExtPortal :=
    match account.sync_parent_uuid, perms.ext_cred_portal_can_view with
    | some sync_parent_uuid, true =>
      match internal_search_uuid st.db sync_parent_uuid with
      | none => .error .NoMatchingEntries
      | some sync_entry =>
        .ok (match sync_entry.sync_credential_portal with
             | some url => .Some url
             | none => .Hidden)
    | some _, false => .ok .Hidden
    | none, _ => .ok .None
  match portal_result with
  | .error e => .error e
  | .ok ext_cred_portal =>
    let session : CredentialUpdateSession :=
      { issuer := st.domain_display_name
      , account, intent_token_id, ext_cred_portal
      , primary
      , primary_can_edit := perms.primary_can_edit
      , passkeys
      , passkeys_can_edit := perms.passkeys_can_edit
      , mfaregstate := .None }
    let status := status_from_session session
    let max_ttl := ct + MAXIMUM_CRED_UPDATE_TTL
    let inner : CredentialUpdateSessionTokenInner := { sessionid, max_ttl }
    let sessions1 := expire_credential_update_sessions
        st.cred_update_sessions ct st.sid
    let sessions2 := (sessionid, false, session) :: sessions1
    .ok (SealedToken.sealed (.decoded inner), status,
         { st with cred_update_sessions := sessions2 })

/-- init_credential_update (lines 805-820), after
validate_init_credential_update has produced the account and the
permission triple (the access-control evaluation itself is an external
collaborator). -/
def init_credential_update (st : IdmServerState) (account : Account)
    (perms : CredUpdateSessionPerms) (ct : Instant) :
    Except OperationError
      (SealedToken × CredentialUpdateSessionStatus × IdmServerState) :=
  let sessionid := uuid_from_duration (ct + MAXIMUM_CRED_UPDATE_TTL) st.sid
  create_credupdate_session st sessionid none account perms ct

/-- init_credential_update_intent (lines 549-618), after validation:
clamp the requested TTL into [5 min, 24 h] (default 1 h), append a Valid
grant under the freshly generated intent id, and opportunistically remove
the target's grants that have already expired. The random word-based
intent id is an input. -/
def init_credential_update_intent_mods (account : Account)
    (perms : CredUpdateSessionPerms) (requested_max_ttl : Option Nat)
    (intent_id : String) (ct : Instant) : List Modify :=
  let mttl := requested_max_ttl.getD DEFAULT_INTENT_TTL
  let clamped_mttl := clampNat mttl MINIMUM_INTENT_TTL MAXIMUM_INTENT_TTL
  let max_ttl := ct + clamped_mttl
  let base : List Modify :=
    [.PresentIntentToken intent_id (.Valid max_ttl perms)]
  let gc : List Modify :=
    account.credential_update_intent_tokens.filterMap (fun kv =>
      if ct ≥ kv.2.the_max_ttl then some (Modify.RemovedIntentToken kv.1)
      else none)
  base ++ gc

def init_credential_update_intent (st : IdmServerState) (account : Account)
    (perms : CredUpdateSessionPerms) (requested_max_ttl : Option Nat)
    (intent_id : String) (ct : Instant) : IdmServerState × String :=
  let modlist :=
    init_credential_update_intent_mods account perms requested_max_ttl
      intent_id ct
  ({ st with db := internal_modify st.db account.uuid modlist }, intent_id)

/-- Tail of exchange_intent_credential_update (lines 766-802), once the
grant has been found usable: derive the session id from the session
expiry, move the grant to InProgress pinned to that id, and create the
session. -/
def exchange_proceed (st : IdmServerState) (intent_id : String)
    (account : Account) (max_ttl : Instant)
    (perms : CredUpdateSessionPerms) (current_time : Instant) :
    Except OperationError
      (SealedToken × CredentialUpdateSessionStatus × IdmServerState) :=
  let session_id := uuid_from_duration
      (current_time + MAXIMUM_CRED_UPDATE_TTL) st.sid
  let modlist : List Modify :=
    [ .RemovedIntentToken intent_id
    , .PresentIntentToken intent_id
        (.InProgress max_ttl perms session_id
          (current_time + MAXIMUM_CRED_UPDATE_TTL)) ]
  let db1 := internal_modify st.db account.uuid modlist
  create_credupdate_session { st with db := db1 } session_id
    (some intent_id) account perms current_time

/-- exchange_intent_credential_update (lines 620-803). -/
def exchange_intent_credential_update (st : IdmServerState)
    (intent_id : String) (current_time : Instant) :
    Except OperationError
      (SealedToken × CredentialUpdateSessionStatus × IdmServerState) :=
  match internal_search_intent st.db intent_id with
  | [] => .error (.Wait (current_time + 150))
  | [entry] =>
    let account := entry
    match tok_lookup account.credential_update_intent_tokens intent_id with
    | some (.Consumed _) => .error .SessionExpired
    | some (.InProgress max_ttl perms _session_id _session_ttl) =>
        exchange_proceed st intent_id account max_ttl perms current_time
    | some (.Valid max_ttl perms) =>
        if current_time ≥ max_ttl then .error .SessionExpired
        else exchange_proceed st intent_id account max_ttl perms current_time
    | none => .error .InvalidState
  | _ => .error .InvalidState

/-- credential_update_commit_common (lines 832-885): open the sealed
token (SessionExpired on decryption failure, SerdeJsonError on decode
failure), check the hard TTL, remove the record from the store
(InvalidState when absent), take the handle (InvalidState when
contended), and hand back an empty modlist, the record and the token
payload. -/
def credential_update_commit_common (st : IdmServerState)
    (cust : SealedToken) (ct : Instant) :
    Except OperationError
      (List Modify × CredentialUpdateSession ×
       CredentialUpdateSessionTokenInner × IdmServerState) :=
  match open_session_token cust with
  | .error e => .error e
  | .ok session_token =>
    if ct ≥ session_token.max_ttl then .error .SessionExpired
    else
      match store_remove st.cred_update_sessions session_token.sessionid with
      | none => .error .InvalidState
      | some ((locked, session), rest) =>
        if locked then .error .InvalidState
        else .ok ([], session, session_token,
                  { st with cred_update_sessions := rest })

/-- commit_credential_update (lines 887-999). The second component of a
successful result is the modification list the commit applied to the
account entry (empty when it short-circuited without touching the
store). -/
def commit_credential_update (st : IdmServerState) (cust : SealedToken)
    (ct : Instant) :
    Except OperationError (IdmServerState × List Modify) :=
  match credential_update_commit_common st cust ct with
  | .error e => .error e
  | .ok (modlist0, session, session_token, st1) =>
    if ¬ session.can_commit then .error .InvalidState
    else
      let intent_step : Except OperationError (List Modify) :=
        match session.intent_token_id with
        | none => .ok modlist0
        | some intent_token_id =>
          match internal_search_uuid st1.db session.account.uuid with
          | none => .error .NoMatchingEntries
          | some account =>
            match tok_lookup account.credential_update_intent_tokens
                intent_token_id with
            | some (.InProgress max_ttl _perms session_id _session_ttl) =>
              if session_id ≠ session_token.sessionid then
                .error .InvalidState
              else
                .ok (modlist0 ++
                  [ .RemovedIntentToken intent_token_id
                  , .PresentIntentToken intent_token_id
                      (.Consumed max_ttl) ])
            | _ => .error .InvalidState
      match intent_step with
      | .error e => .error e
      | .ok ml1 =>
        let ml2 :=
          if session.primary_can_edit then
            match session.primary with
            | some ncred => ml1 ++ [.PurgedPrimary, .PresentPrimary ncred]
            | none => ml1 ++ [.PurgedPrimary]
          else ml1
        let ml3 :=
          if session.passkeys_can_edit then
            (ml2 ++ [.PurgedPasskeys]) ++
              session.passkeys.map
                (fun kv => Modify.PresentPasskey kv.1 kv.2.1 kv.2.2)
          else ml2
        if ml3.isEmpty then .ok (st1, ml3)
        else .ok ({ st1 with
                    db := internal_modify st1.db session.account.uuid ml3 },
                  ml3)

/-- cancel_credential_update (lines 1001-1075): same preamble as commit;
when an intent was associated the grant must be InProgress pinned to this
session and moves back to Valid with its original expiry and permissions;
no credential attribute is touched. -/
def cancel_credential_update (st : IdmServerState) (cust : SealedToken)
    (ct : Instant) :
    Except OperationError (IdmServerState × List Modify) :=
  match credential_update_commit_common st cust ct with
  | .error e => .error e
  | .ok (modlist0, session, session_token, st1) =>
    let intent_step : Except OperationError (List Modify) :=
      match session.intent_token_id with
      | none => .ok modlist0
      | some intent_token_id =>
        match internal_search_uuid st1.db session.account.uuid with
        | none => .error .NoMatchingEntries
        | some account =>
          match tok_lookup account.credential_update_intent_tokens
              intent_token_id with
          | some (.InProgress max_ttl perms session_id _session_ttl) =>
            if session_id ≠ session_token.sessionid then
              .error .InvalidState
            else
              .ok (modlist0 ++
                [ .RemovedIntentToken intent_token_id
                , .PresentIntentToken intent_token_id
                    (.Valid max_ttl perms) ])
          | _ => .error .InvalidState
    match intent_step with
    | .error e => .error e
    | .ok ml1 =>
      if ml1.isEmpty then .ok (st1, ml1)
      else .ok ({ st1 with
                  db := internal_modify st1.db session.account.uuid ml1 },
                ml1)

/-- get_current_session (lines 1084-1117): open the sealed token, check
the hard TTL, then find the handle in the store (InvalidState when
absent). The handle's lock flag is returned so the caller's try_lock can
be modelled. -/
def get_current_session (sessions : SessionStore) (cust : SealedToken)
    (ct : Instant) :
    Except OperationError (Uuid × Bool × CredentialUpdateSession) :=
  match open_session_token cust with
  | .error e => .error e
  | .ok session_token =>
    if ct ≥ session_token.max_ttl then .error .SessionExpired
    else
      match store_get sessions session_token.sessionid with
      | none => .error .InvalidState
      | some (locked, session) =>
        .ok (session_token.sessionid, locked, session)

/-- Result shape of the read-transaction operations: the status or an
error, together with the session store afterwards. An edit that errors
leaves the store as it found it (the source never writes through the
handle before all checks pass). -/
abbrev EditResult :=
  (Except OperationError CredentialUpdateSessionStatus) × SessionStore

/-- credential_update_status (lines 1121-1135). -/
def credential_update_status (sessions : SessionStore)
    (cust : SealedToken) (ct : Instant) : EditResult :=
  match get_current_session sessions cust ct with
  | .error e => (.error e, sessions)
  | .ok (_sid, locked, session) =>
    if locked then (.error .InvalidState, sessions)
    else (.ok (status_from_session session), sessions)

inductive PasswordQuality
  | TooShort (sz : Nat)
  | BadListed
  | Feedback (feedback : List PasswordFeedback)
deriving DecidableEq, Repr

/-- External inputs of check_password_quality: the zxcvbn estimator and
the configured bad-word list. -/
structure PwQualityEnv where
  zxcvbn_score : String → Nat
  zxcvbn_feedback : String → List PasswordFeedback
  pw_badlist : List String

/-- check_password_quality (lines 1137-1283): reject short passwords,
then low zxcvbn scores (collecting the estimator's feedback), then
passwords whose lowercase form is badlisted. -/
def check_password_quality (env : PwQualityEnv) (cleartext : String)
    (_related_inputs : List String) : Except PasswordQuality Unit :=
  if cleartext.length < PW_MIN_LENGTH then
    .error (.TooShort PW_MIN_LENGTH)
  else if env.zxcvbn_score cleartext < 4 then
    .error (.Feedback (env.zxcvbn_feedback cleartext))
  else if env.pw_badlist.contains cleartext.toLower then
    .error .BadListed
  else .ok ()

/-- credential_primary_set_password (lines 1285-1326). -/
def credential_primary_set_password (env : PwQualityEnv)
    (sessions : SessionStore) (cust : SealedToken) (ct : Instant)
    (pw : String) : EditResult :=
  match get_current_session sessions cust ct with
  | .error e => (.error e, sessions)
  | .ok (sid, locked, session) =>
    if locked then (.error .InvalidState, sessions)
    else if ¬ session.primary_can_edit then (.error .AccessDenied, sessions)
    else
      match check_password_quality env pw session.account.related_inputs with
      | .error (.TooShort sz) =>
          (.error (.PasswordQuality [.TooShort sz]), sessions)
      | .error .BadListed =>
          (.error (.PasswordQuality [.BadListed]), sessions)
      | .error (.Feedback feedback) =>
          (.error (.PasswordQuality feedback), sessions)
      | .ok () =>
        let ncred :=
          match session.primary with
          | some primary => primary.set_password pw
          | none => Credential.new_password_only pw
        let session1 := { session with primary := some ncred }
        (.ok (status_from_session session1), store_set sessions sid session1)

/-- credential_primary_init_totp (lines 1328-1358); the freshly generated
secret is an input. -/
def credential_primary_init_totp (sessions : SessionStore)
    (cust : SealedToken) (ct : Instant) (totp_token : Totp) : EditResult :=
  match get_current_session sessions cust ct with
  | .error e => (.error e, sessions)
  | .ok (sid, locked, session) =>
    if locked then (.error .InvalidState, sessions)
    else if ¬ session.primary_can_edit then (.error .AccessDenied, sessions)
    else
      match session.mfaregstate with
      | .None =>
        let session1 := { session with mfaregstate := .TotpInit totp_token }
        (.ok (status_from_session session1), store_set sessions sid session1)
      | _ => (.error .InvalidState, sessions)

/-- credential_primary_check_totp (lines 1360-1424); the TOTP code
computation is the external `verify` parameter. -/
def credential_primary_check_totp (verify : TotpVerify)
    (sessions : SessionStore) (cust : SealedToken) (ct : Instant)
    (totp_chal : Nat) (label : String) : EditResult :=
  match get_current_session sessions cust ct with
  | .error e => (.error e, sessions)
  | .ok (sid, locked, session) =>
    if locked then (.error .InvalidState, sessions)
    else if ¬ session.primary_can_edit then (.error .AccessDenied, sessions)
    else
      match session.mfaregstate with
      | .TotpInit totp_token
      | .TotpTryAgain totp_token
      | .TotpInvalidSha1 totp_token _ _ =>
        if verify totp_token totp_chal ct then
          match session.primary with
          | none => (.error .InvalidState, sessions)
          | some cred =>
            let ncred := cred.append_totp label totp_token
            let session1 := { session with primary := some ncred
                                         , mfaregstate := .None }
            (.ok (status_from_session session1),
             store_set sessions sid session1)
        else
          let token_sha1 := totp_token.downgrade_to_legacy
          if verify token_sha1 totp_chal ct then
            let session1 := { session with mfaregstate :=
                (.TotpInvalidSha1 totp_token token_sha1 label) }
            (.ok (status_from_session session1),
             store_set sessions sid session1)
          else
            let session1 := { session with mfaregstate :=
                (.TotpTryAgain totp_token) }
            (.ok (status_from_session session1),
             store_set sessions sid session1)
      | _ => (.error .InvalidRequestState, sessions)

/-- credential_primary_accept_sha1_totp (lines 1426-1466). -/
def credential_primary_accept_sha1_totp (sessions : SessionStore)
    (cust : SealedToken) (ct : Instant) : EditResult :=
  match get_current_session sessions cust ct with
  | .error e => (.error e, sessions)
  | .ok (sid, locked, session) =>
    if locked then (.error .InvalidState, sessions)
    else if ¬ session.primary_can_edit then (.error .AccessDenied, sessions)
    else
      match session.mfaregstate with
      | .TotpInvalidSha1 _ token_sha1 label =>
        match session.primary with
        | none => (.error .InvalidState, sessions)
        | some cred =>
          let ncred := cred.append_totp label token_sha1
          let session1 := { session with primary := some ncred
                                       , mfaregstate := .None }
          (.ok (status_from_session session1),
           store_set sessions sid session1)
      | _ => (.error .InvalidRequestState, sessions)

/-- credential_primary_remove_totp (lines 1468-1505). -/
def credential_primary_remove_totp (sessions : SessionStore)
    (cust : SealedToken) (ct : Instant) (label : String) : EditResult :=
  match get_current_session sessions cust ct with
  | .error e => (.error e, sessions)
  | .ok (sid, locked, session) =>
    if locked then (.error .InvalidState, sessions)
    else if ¬ session.primary_can_edit then (.error .AccessDenied, sessions)
    else
      match session.mfaregstate with
      | .None =>
        match session.primary with
        | none => (.error .InvalidState, sessions)
        | some cred =>
          let ncred := cred.remove_totp label
          let session1 := { session with primary := some ncred
                                       , mfaregstate := .None }
          (.ok (status_from_session session1),
           store_set sessions sid session1)
      | _ => (.error .InvalidState, sessions)

/-- credential_primary_init_backup_codes (lines 1507-1550): no MFA
sub-state is read or written; the generated plaintext codes (an input)
are overlaid on the returned status only. -/
def credential_primary_init_backup_codes (sessions : SessionStore)
    (cust : SealedToken) (ct : Instant) (codes : List String) : EditResult :=
  match get_current_session sessions cust ct with
  | .error e => (.error e, sessions)
  | .ok (sid, locked, session) =>
    if locked then (.error .InvalidState, sessions)
    else if ¬ session.primary_can_edit then (.error .AccessDenied, sessions)
    else
      match session.primary with
      | none => (.error .InvalidState, sessions)
      | some cred =>
        match cred.update_backup_code codes with
        | .error () => (.error .InvalidState, sessions)
        | .ok ncred =>
          let session1 := { session with primary := some ncred }
          let status := { status_from_session session1 with
                          mfaregstate := .BackupCodes codes }
          (.ok status, store_set sessions sid session1)

/-- credential_primary_remove_backup_codes (lines 1552-1588). -/
def credential_primary_remove_backup_codes (sessions : SessionStore)
    (cust : SealedToken) (ct : Instant) : EditResult :=
  match get_current_session sessions cust ct with
  | .error e => (.error e, sessions)
  | .ok (sid, locked, session) =>
    if locked then (.error .InvalidState, sessions)
    else if ¬ session.primary_can_edit then (.error .AccessDenied, sessions)
    else
      match session.primary with
      | none => (.error .InvalidState, sessions)
      | some cred =>
        match cred.remove_backup_code with
        | .error () => (.error .InvalidState, sessions)
        | .ok ncred =>
          let session1 := { session with primary := some ncred }
          (.ok (status_from_session session1),
           store_set sessions sid session1)

/-- credential_passkey_init (lines 1590-1628); the webauthn ceremony
start is the external parameter (challenge and registration state on
success). -/
def credential_passkey_init (webauthn_start : Except Unit (Nat × Nat))
    (sessions : SessionStore) (cust : SealedToken) (ct : Instant) :
    EditResult :=
  match get_current_session sessions cust ct with
  | .error e => (.error e, sessions)
  | .ok (sid, locked, session) =>
    if locked then (.error .InvalidState, sessions)
    else if ¬ session.passkeys_can_edit then (.error .AccessDenied, sessions)
    else
      match session.mfaregstate with
      | .None =>
        match webauthn_start with
        | .error () => (.error .Webauthn, sessions)
        | .ok (ccr, pk_reg) =>
          let session1 := { session with mfaregstate := .Passkey ccr pk_reg }
          (.ok (status_from_session session1),
           store_set sessions sid session1)
      | _ => (.error .InvalidState, sessions)

/-- credential_passkey_finish (lines 1630-1668); the webauthn completion
(from the client response and the stored registration state) and the
fresh passkey uuid are external parameters. -/
def credential_passkey_finish (webauthn_finish : Nat → Except Unit Nat)
    (new_uuid : Uuid) (sessions : SessionStore) (cust : SealedToken)
    (ct : Instant) (label : String) : EditResult :=
  match get_current_session sessions cust ct with
  | .error e => (.error e, sessions)
  | .ok (sid, locked, session) =>
    if locked then (.error .InvalidState, sessions)
    else if ¬ session.passkeys_can_edit then (.error .AccessDenied, sessions)
    else
      match session.mfaregstate with
      | .Passkey _ccr pk_reg =>
        match webauthn_finish pk_reg with
        | .error () => (.error .Webauthn, sessions)
        | .ok passkey =>
          let session1 := { session with
              passkeys := session.passkeys ++ [(new_uuid, label, passkey)]
            , mfaregstate := .None }
          (.ok (status_from_session session1),
           store_set sessions sid session1)
      | _ => (.error .InvalidRequestState, sessions)

/-- credential_passkey_remove (lines 1670-1692): no-op when absent. -/
def credential_passkey_remove (sessions : SessionStore)
    (cust : SealedToken) (ct : Instant) (uuid : Uuid) : EditResult :=
  match get_current_session sessions cust ct with
  | .error e => (.error e, sessions)
  | .ok (sid, locked, session) =>
    if locked then (.error .InvalidState, sessions)
    else if ¬ session.passkeys_can_edit then (.error .AccessDenied, sessions)
    else
      let session1 := { session with
          passkeys := session.passkeys.filter (fun kv => kv.1 ≠ uuid) }
      (.ok (status_from_session session1), store_set sessions sid session1)

/-- credential_update_cancel_mfareg (lines 1694-1707): resets the
sub-state to None; there is no permission check on this operation. -/
def credential_update_cancel_mfareg (sessions : SessionStore)
    (cust : SealedToken) (ct : Instant) : EditResult :=
  match get_current_session sessions cust ct with
  | .error e => (.error e, sessions)
  | .ok (sid, locked, session) =>
    if locked then (.error .InvalidState, sessions)
    else
      let session1 := { session with mfaregstate := .None }
      (.ok (status_from_session session1), store_set sessions sid session1)

/-- credential_primary_delete (lines 1709-1728). -/
def credential_primary_delete (sessions : SessionStore)
    (cust : SealedToken) (ct : Instant) : EditResult :=
  match get_current_session sessions cust ct with
  | .error e => (.error e, sessions)
  | .ok (sid, locked, session) =>
    if locked then (.error .InvalidState, sessions)
    else if ¬ session.primary_can_edit then (.error .AccessDenied, sessions)
    else
      let session1 := { session with primary := none }
      (.ok (status_from_session session1), store_set sessions sid session1)

/-!
Concrete instances used to evaluate the embedded operations on explicit
inputs (counterexamples and witnesses).
-/

def demo_perms_none : CredUpdateSessionPerms :=
  { ext_cred_portal_can_view := false
  , primary_can_edit := false
  , passkeys_can_edit := false }

def demo_perms_primary : CredUpdateSessionPerms :=
  { ext_cred_portal_can_view := false
  , primary_can_edit := true
  , passkeys_can_edit := false }

def demo_account : Account :=
  { uuid := 7
  , name := "testperson"
  , spn := "testperson@example.com"
  , displayname := "Test Person"
  , primary := none
  , passkeys := []
  , sync_parent_uuid := none
  , sync_credential_portal := none
  , credential_update_intent_tokens := [] }

def demo_st : IdmServerState :=
  { db := []
  , cred_update_sessions := []
  , sid := 0
  , domain_display_name := "example" }

/-- Session over demo_account whose editable state equals the snapshot
taken at open, with the primary edit bit set and no intent. -/
def c2_session : CredentialUpdateSession :=
  { issuer := "example"
  , account := demo_account
  , intent_token_id := none
  , ext_cred_portal := .None
  , primary := none
  , primary_can_edit := true
  , passkeys := []
  , passkeys_can_edit := false
  , mfaregstate := .None }

def c2_st : IdmServerState :=
  { db := [demo_account]
  , cred_update_sessions := [(900, false, c2_session)]
  , sid := 0
  , domain_display_name := "example" }

def c2_post : IdmServerState :=
  { db := [demo_account]
  , cred_update_sessions := []
  , sid := 0
  , domain_display_name := "example" }

/-- Session on a synced-style account: both edit bits false. -/
def c3_session : CredentialUpdateSession :=
  { issuer := "example"
  , account := demo_account
  , intent_token_id := none
  , ext_cred_portal := .Hidden
  , primary := none
  , primary_can_edit := false
  , passkeys := []
  , passkeys_can_edit := false
  , mfaregstate := .None }

def c3_store : SessionStore := [(900, false, c3_session)]

def c4_store : SessionStore := [(900, false, c3_session)]

/-- Session in TotpInit with no primary credential stub. -/
def c5_session : CredentialUpdateSession :=
  { issuer := "example"
  , account := demo_account
  , intent_token_id := none
  , ext_cred_portal := .None
  , primary := none
  , primary_can_edit := true
  , passkeys := []
  , passkeys_can_edit := false
  , mfaregstate := .TotpInit { secret := 5, algo := .Sha256 } }

def c5_store : SessionStore := [(900, false, c5_session)]

def c5_session1 : CredentialUpdateSession :=
  { c5_session with mfaregstate :=
      (.TotpTryAgain { secret := 5, algo := .Sha256 }) }

def demo_env : PwQualityEnv :=
  { zxcvbn_score := fun _ => 4
  , zxcvbn_feedback := fun _ => []
  , pw_badlist := [] }

def demo_verify : TotpVerify := fun _ _ _ => false

def demo_verify_true : TotpVerify := fun _ _ _ => true

def demo_ws : Except Unit (Nat × Nat) := .ok (1, 2)

def demo_wf : Nat → Except Unit Nat := fun _ => .ok 3

def demo_cred : Credential :=
  { password := "secret-hunter2", totps := [], backup_codes := none }

/-- Session in TotpInit with a primary credential stub present. -/
def c5b_session : CredentialUpdateSession :=
  { c5_session with primary := some demo_cred }

def c5b_store : SessionStore := [(900, false, c5b_session)]

/-- Double-exchange scenario: an account holding one Valid grant. -/
def c8_account : Account :=
  { uuid := 7
  , name := "testperson"
  , spn := "testperson@example.com"
  , displayname := "Test Person"
  , primary := none
  , passkeys := []
  , sync_parent_uuid := none
  , sync_credential_portal := none
  , credential_update_intent_tokens :=
      [("tok", .Valid 6300 demo_perms_primary)] }

def c8_st0 : IdmServerState :=
  { db := [c8_account]
  , cred_update_sessions := []
  , sid := 0
  , domain_display_name := "example" }

def c8_ex1 := exchange_intent_credential_update c8_st0 "tok" 6000

def c8_stA : IdmServerState :=
  match c8_ex1 with
  | .ok (_, _, s) => s
  | .error _ => c8_st0

def c8_tokA : SealedToken :=
  match c8_ex1 with
  | .ok (t, _, _) => t
  | .error _ => .garbage

def c8_ex2 := exchange_intent_credential_update c8_stA "tok" 6001

def c8_stB : IdmServerState :=
  match c8_ex2 with
  | .ok (_, _, s) => s
  | .error _ => c8_stA

def c8_tokB : SealedToken :=
  match c8_ex2 with
  | .ok (t, _, _) => t
  | .error _ => .garbage

/-- Session A's record as stored after the second exchange. -/
def c8_sessA : CredentialUpdateSession :=
  match store_get c8_stB.cred_update_sessions 6900 with
  | some (_, s) => s
  | none => c3_session

/-- The account entry after the second exchange (grant pinned to B). -/
def c8_entryB : Account :=
  (internal_search_uuid c8_stB.db 7).getD demo_account

/-- Cancel scenario: an account with an InProgress grant pinned to
session 900, and the matching session record. -/
def c9_account : Account :=
  { uuid := 7
  , name := "testperson"
  , spn := "testperson@example.com"
  , displayname := "Test Person"
  , primary := some demo_cred
  , passkeys := [(11, "softtoken", 42)]
  , sync_parent_uuid := none
  , sync_credential_portal := none
  , credential_update_intent_tokens :=
      [("tok", .InProgress 6300 demo_perms_primary 900 900)] }

def c9_session : CredentialUpdateSession :=
  { issuer := "example"
  , account := c9_account
  , intent_token_id := some "tok"
  , ext_cred_portal := .None
  , primary := some demo_cred
  , primary_can_edit := true
  , passkeys := []
  , passkeys_can_edit := false
  , mfaregstate := .None }

def c9_st : IdmServerState :=
  { db := [c9_account]
  , cred_update_sessions := [(900, false, c9_session)]
  , sid := 0
  , domain_display_name := "example" }

/-- Backup-code scenario: a primary credential with a TOTP attached, on
a session that is mid TOTP ceremony. -/
def c10_cred : Credential :=
  { password := "secret-hunter2"
  , totps := [("t", { secret := 5, algo := .Sha256 })]
  , backup_codes := none }

def c10_session : CredentialUpdateSession :=
  { issuer := "example"
  , account := demo_account
  , intent_token_id := none
  , ext_cred_portal := .None
  , primary := some c10_cred
  , primary_can_edit := true
  , passkeys := []
  , passkeys_can_edit := false
  , mfaregstate := .TotpInit { secret := 9, algo := .Sha256 } }

def c10_store : SessionStore := [(900, false, c10_session)]

/-!
Helper lemmas shared by the claim theorems.
-/

theorem apply_modify_uuid (a : Account) (m : Modify) :
    (apply_modify a m).uuid = a.uuid := by
  cases m <;> rfl

theorem apply_modlist_uuid (ml : List Modify) :
    ∀ a : Account, (apply_modlist a ml).uuid = a.uuid := by
  induction ml with
  | nil => intro a; rfl
  | cons m rest ih =>
    intro a
    show (apply_modlist (apply_modify a m) rest).uuid = a.uuid
    rw [ih, apply_modify_uuid]

theorem internal_search_uuid_modify (db : Db) (u : Uuid) (ml : List Modify) :
    internal_search_uuid (internal_modify db u ml) u
      = (internal_search_uuid db u).map (fun a => apply_modlist a ml) := by
  induction db with
  | nil => rfl
  | cons a rest ih =>
    by_cases h : a.uuid = u
    · simp [internal_modify, internal_search_uuid, h, apply_modlist_uuid]
    · simp only [internal_modify, List.map_cons, internal_search_uuid,
        if_neg h]
      exact ih

theorem tok_lookup_filter_self (l : List (String × IntentTokenState))
    (k : String) :
    tok_lookup (l.filter (fun kv => kv.1 ≠ k)) k = none := by
  induction l with
  | nil => rfl
  | cons kv rest ih =>
    obtain ⟨k0, v0⟩ := kv
    by_cases h : k0 = k
    · simpa [List.filter_cons, h] using ih
    · simpa [List.filter_cons, h, tok_lookup] using ih

theorem tok_lookup_append_self (l : List (String × IntentTokenState))
    (k : String) (v : IntentTokenState) (h : tok_lookup l k = none) :
    tok_lookup (l ++ [(k, v)]) k = some v := by
  induction l with
  | nil => simp [tok_lookup]
  | cons kv rest ih =>
    obtain ⟨k0, v0⟩ := kv
    by_cases hk : k0 = k
    · rw [tok_lookup, if_pos hk] at h
      exact absurd h (by simp)
    · rw [tok_lookup, if_neg hk] at h
      rw [List.cons_append, tok_lookup, if_neg hk]
      exact ih h

theorem tok_lookup_upsert (l : List (String × IntentTokenState))
    (k : String) (v : IntentTokenState) :
    tok_lookup (l.filter (fun kv => kv.1 ≠ k) ++ [(k, v)]) k = some v :=
  tok_lookup_append_self _ _ _ (tok_lookup_filter_self l k)

theorem store_get_expire (sessions : SessionStore) (ct : Instant)
    (sid : Nat) (id : Uuid) (h : id < uuid_from_duration ct sid) :
    store_get (expire_credential_update_sessions sessions ct sid) id
      = none := by
  induction sessions with
  | nil => rfl
  | cons kv rest ih =>
    obtain ⟨i, l, s⟩ := kv
    by_cases hi : i < uuid_from_duration ct sid
    · have hi2 : ¬ uuid_from_duration ct sid ≤ i := not_le.mpr hi
      simpa [expire_credential_update_sessions, List.filter_cons, hi2]
        using ih
    · have hi2 : uuid_from_duration ct sid ≤ i := not_lt.mp hi
      have hne : i ≠ id := by
        intro he
        exact hi (he ▸ h)
      simpa [expire_credential_update_sessions, List.filter_cons, hi2,
        store_get, hne] using ih

theorem get_current_session_eq (sessions : SessionStore)
    (inner : CredentialUpdateSessionTokenInner) (ct : Instant)
    (locked : Bool) (session : CredentialUpdateSession)
    (httl : ct < inner.max_ttl)
    (hget : store_get sessions inner.sessionid = some (locked, session)) :
    get_current_session sessions (.sealed (.decoded inner)) ct
      = .ok (inner.sessionid, locked, session) := by
  have h : ¬ ct ≥ inner.max_ttl := not_le.mpr httl
  simp [get_current_session, open_session_token, token_decrypt,
    token_deserialise, h, hget]

theorem commit_common_eq (st : IdmServerState)
    (inner : CredentialUpdateSessionTokenInner) (ct : Instant)
    (session : CredentialUpdateSession)
    (httl : ct < inner.max_ttl)
    (hget : store_get st.cred_update_sessions inner.sessionid
              = some (false, session)) :
    credential_update_commit_common st (.sealed (.decoded inner)) ct
      = .ok ([], session, inner,
          { st with cred_update_sessions :=
              (st.cred_update_sessions.filter
                (fun kv => kv.1 ≠ inner.sessionid)) }) := by
  have h : ¬ ct ≥ inner.max_ttl := not_le.mpr httl
  simp [credential_update_commit_common, open_session_token, token_decrypt,
    token_deserialise, h, store_remove, hget]

/-- C1 (counterexample): a token that decrypts but fails to deserialise is
reported as SerdeJsonError, not SessionExpired, by both the read path
(status) and the write path (commit). -/
theorem claim_C1_counterexample :
    (credential_update_status [] (SealedToken.sealed .undecodable) 0).1
        = .error .SerdeJsonError
      ∧ commit_credential_update demo_st (SealedToken.sealed .undecodable) 0
        = .error .SerdeJsonError
      ∧ OperationError.SerdeJsonError ≠ OperationError.SessionExpired := by
  refine ⟨rfl, rfl, ?_⟩
  decide

/-- C1 (amended): every operation that opens the sealed token (status,
each per-credential edit, commit, cancel) returns SessionExpired when
decryption fails, and SerdeJsonError when decryption succeeds but the
payload fails to deserialise. -/
theorem claim_C1_amended (env : PwQualityEnv) (verify : TotpVerify)
    (ws : Except Unit (Nat × Nat)) (wf : Nat → Except Unit Nat)
    (nu : Uuid) (st : IdmServerState) (sessions : SessionStore)
    (ct : Instant) (pw label : String) (totp : Totp) (chal : Nat)
    (codes : List String) (u : Uuid) :
    (credential_update_status sessions .garbage ct
        = (.error .SessionExpired, sessions))
    ∧ (credential_update_status sessions (.sealed .undecodable) ct
        = (.error .SerdeJsonError, sessions))
    ∧ (credential_primary_set_password env sessions .garbage ct pw
        = (.error .SessionExpired, sessions))
    ∧ (credential_primary_set_password env sessions (.sealed .undecodable) ct pw
        = (.error .SerdeJsonError, sessions))
    ∧ (credential_primary_init_totp sessions .garbage ct totp
        = (.error .SessionExpired, sessions))
    ∧ (credential_primary_init_totp sessions (.sealed .undecodable) ct totp
        = (.error .SerdeJsonError, sessions))
    ∧ (credential_primary_check_totp verify sessions .garbage ct chal label
        = (.error .SessionExpired, sessions))
    ∧ (credential_primary_check_totp verify sessions (.sealed .undecodable) ct chal label
        = (.error .SerdeJsonError, sessions))
    ∧ (credential_primary_accept_sha1_totp sessions .garbage ct
        = (.error .SessionExpired, sessions))
    ∧ (credential_primary_accept_sha1_totp sessions (.sealed .undecodable) ct
        = (.error .SerdeJsonError, sessions))
    ∧ (credential_primary_remove_totp sessions .garbage ct label
        = (.error .SessionExpired, sessions))
    ∧ (credential_primary_remove_totp sessions (.sealed .undecodable) ct label
        = (.error .SerdeJsonError, sessions))
    ∧ (credential_primary_init_backup_codes sessions .garbage ct codes
        = (.error .SessionExpired, sessions))
    ∧ (credential_primary_init_backup_codes sessions (.sealed .undecodable) ct codes
        = (.error .SerdeJsonError, sessions))
    ∧ (credential_primary_remove_backup_codes sessions .garbage ct
        = (.error .SessionExpired, sessions))
    ∧ (credential_primary_remove_backup_codes sessions (.sealed .undecodable) ct
        = (.error .SerdeJsonError, sessions))
    ∧ (credential_passkey_init ws sessions .garbage ct
        = (.error .SessionExpired, sessions))
    ∧ (credential_passkey_init ws sessions (.sealed .undecodable) ct
        = (.error .SerdeJsonError, sessions))
    ∧ (credential_passkey_finish wf nu sessions .garbage ct label
        = (.error .SessionExpired, sessions))
    ∧ (credential_passkey_finish wf nu sessions (.sealed .undecodable) ct label
        = (.error .SerdeJsonError, sessions))
    ∧ (credential_passkey_remove sessions .garbage ct u
        = (.error .SessionExpired, sessions))
    ∧ (credential_passkey_remove sessions (.sealed .undecodable) ct u
        = (.error .SerdeJsonError, sessions))
    ∧ (credential_update_cancel_mfareg sessions .garbage ct
        = (.error .SessionExpired, sessions))
    ∧ (credential_update_cancel_mfareg sessions (.sealed .undecodable) ct
        = (.error .SerdeJsonError, sessions))
    ∧ (credential_primary_delete sessions .garbage ct
        = (.error .SessionExpired, sessions))
    ∧ (credential_primary_delete sessions (.sealed .undecodable) ct
        = (.error .SerdeJsonError, sessions))
    ∧ (commit_credential_update st .garbage ct = .error .SessionExpired)
    ∧ (commit_credential_update st (.sealed .undecodable) ct
        = .error .SerdeJsonError)
    ∧ (cancel_credential_update st .garbage ct = .error .SessionExpired)
    ∧ (cancel_credential_update st (.sealed .undecodable) ct
        = .error .SerdeJsonError) :=
  ⟨rfl, rfl, rfl, rfl, rfl, rfl, rfl, rfl, rfl, rfl, rfl, rfl, rfl, rfl,
   rfl, rfl, rfl, rfl, rfl, rfl, rfl, rfl, rfl, rfl, rfl, rfl, rfl, rfl,
   rfl, rfl⟩

/-- C7: every issued intent grant's expiry satisfies
expiry - now ∈ [5 min, 24 h], with 1 h exactly when no TTL was requested;
the modification list built by intent issuance carries exactly one
Present grant, the Valid grant under the fresh intent id. -/
theorem claim_C7 (account : Account) (perms : CredUpdateSessionPerms)
    (requested_max_ttl : Option Nat) (intent_id : String) (ct : Instant) :
    ∃ expiry,
      (init_credential_update_intent_mods account perms requested_max_ttl
          intent_id ct).head?
        = some (.PresentIntentToken intent_id (.Valid expiry perms))
      ∧ (∀ j s, Modify.PresentIntentToken j s
            ∈ init_credential_update_intent_mods account perms
                requested_max_ttl intent_id ct
            → j = intent_id ∧ s = .Valid expiry perms)
      ∧ MINIMUM_INTENT_TTL ≤ expiry - ct
      ∧ expiry - ct ≤ MAXIMUM_INTENT_TTL
      ∧ (requested_max_ttl = none → expiry - ct = DEFAULT_INTENT_TTL) := by
  refine ⟨ct + clampNat (requested_max_ttl.getD DEFAULT_INTENT_TTL)
      MINIMUM_INTENT_TTL MAXIMUM_INTENT_TTL, rfl, ?_, ?_, ?_, ?_⟩
  · intro j s hmem
    simp only [init_credential_update_intent_mods, List.cons_append,
      List.nil_append, List.mem_cons] at hmem
    rcases hmem with heq | hgc
    · cases heq
      exact ⟨rfl, rfl⟩
    · exfalso
      rcases List.mem_filterMap.mp hgc with ⟨kv, _, hkv⟩
      by_cases hc : ct ≥ kv.2.the_max_ttl
      · rw [if_pos hc] at hkv
        cases hkv
      · rw [if_neg hc] at hkv
        cases hkv
  · rw [Nat.add_sub_cancel_left]
    exact le_max_left _ _
  · rw [Nat.add_sub_cancel_left]
    exact max_le (by norm_num [MINIMUM_INTENT_TTL, MAXIMUM_INTENT_TTL])
      (min_le_right _ _)
  · intro h
    subst h
    rw [Nat.add_sub_cancel_left]
    decide

/-- C7 (witness): the clamp theorem evaluated at the default TTL. -/
theorem claim_C7_witness :
    ∃ expiry,
      (init_credential_update_intent_mods demo_account demo_perms_primary
          none "demo" 1000).head?
        = some (.PresentIntentToken "demo" (.Valid expiry demo_perms_primary))
      ∧ MINIMUM_INTENT_TTL ≤ expiry - 1000
      ∧ expiry - 1000 ≤ MAXIMUM_INTENT_TTL
      ∧ expiry - 1000 = DEFAULT_INTENT_TTL := by
  obtain ⟨e, h1, _h2, h3, h4, h5⟩ :=
    claim_C7 demo_account demo_perms_primary none "demo" 1000
  exact ⟨e, h1, h3, h4, h5 rfl⟩

/-- C2 (counterexample): on a session whose editable state equals the
snapshot taken at open (both are an empty primary and empty passkeys)
but whose primary edit bit is set, commit succeeds yet emits a
modification (the purge of the primary-credential attribute). -/
theorem claim_C2_counterexample :
    c2_session.primary = c2_session.account.primary
    ∧ c2_session.passkeys = c2_session.account.passkeys
    ∧ commit_credential_update c2_st
        (.sealed (.decoded { sessionid := 900, max_ttl := 900 })) 0
      = .ok (c2_post, [.PurgedPrimary])
    ∧ ([Modify.PurgedPrimary] : List Modify) ≠ [] := by
  refine ⟨rfl, rfl, ?_, ?_⟩ <;> decide

/-- C2 (amended): commit on a session with no associated intent always
succeeds, but there is no no-op detection against the snapshot: the
emitted modification list is empty exactly when both edit-permission
bits are false; whenever a bit is set the attribute is purged and
rewritten regardless of whether the editable state equals the snapshot. -/
theorem claim_C2_amended (st : IdmServerState)
    (inner : CredentialUpdateSessionTokenInner)
    (session : CredentialUpdateSession) (ct : Instant)
    (httl : ct < inner.max_ttl)
    (hget : store_get st.cred_update_sessions inner.sessionid
              = some (false, session))
    (hintent : session.intent_token_id = none) :
    ∃ stf ml,
      commit_credential_update st (.sealed (.decoded inner)) ct
        = .ok (stf, ml)
      ∧ (ml = [] ↔
          session.primary_can_edit = false
          ∧ session.passkeys_can_edit = false) := by
  have hc := commit_common_eq st inner ct session httl hget
  rcases hp : session.primary_can_edit <;>
    rcases hk : session.passkeys_can_edit <;>
    rcases hpr : session.primary with _ | c <;>
    simp [commit_credential_update, hc, CredentialUpdateSession.can_commit,
      hintent, hp, hk, hpr] <;>
    exact ⟨_, _, ⟨rfl, rfl⟩, by simp⟩

/-- C2 (witness): the amended commit theorem evaluated on the concrete
snapshot-equal session; the primary bit is set so the modlist is not
empty. -/
theorem claim_C2_witness :
    ∃ stf ml,
      commit_credential_update c2_st
          (.sealed (.decoded { sessionid := 900, max_ttl := 900 })) 0
        = .ok (stf, ml)
      ∧ (ml = [] ↔
          c2_session.primary_can_edit = false
          ∧ c2_session.passkeys_can_edit = false) :=
  claim_C2_amended c2_st { sessionid := 900, max_ttl := 900 } c2_session 0
    (by decide) (by decide) (by decide)

/-- C3 (counterexample): on a session where both edit bits are false,
the cancel-MFA-registration edit operation succeeds instead of
returning AccessDenied. -/
theorem claim_C3_counterexample :
    c3_session.primary_can_edit = false
    ∧ c3_session.passkeys_can_edit = false
    ∧ (credential_update_cancel_mfareg c3_store
        (.sealed (.decoded { sessionid := 900, max_ttl := 900 })) 0).1
      = .ok (status_from_session c3_session)
    ∧ (Except.ok (status_from_session c3_session)
        : Except OperationError CredentialUpdateSessionStatus)
      ≠ .error .AccessDenied := by
  refine ⟨rfl, rfl, ?_, ?_⟩ <;> decide

/-- C3 (amended): every per-credential edit operation except
cancel-MFA-registration requires its permission bit: when the bit is
false the operation returns AccessDenied and the session store is
unchanged. Cancel-MFA-registration performs no permission check at all:
it succeeds and resets the sub-state regardless of the bits. -/
theorem claim_C3_amended (env : PwQualityEnv) (verify : TotpVerify)
    (ws : Except Unit (Nat × Nat)) (wf : Nat → Except Unit Nat) (nu : Uuid)
    (sessions : SessionStore) (inner : CredentialUpdateSessionTokenInner)
    (session : CredentialUpdateSession) (ct : Instant)
    (pw label : String) (totp : Totp) (chal : Nat) (codes : List String)
    (u : Uuid)
    (httl : ct < inner.max_ttl)
    (hget : store_get sessions inner.sessionid = some (false, session)) :
    (session.primary_can_edit = false →
      credential_primary_set_password env sessions
          (.sealed (.decoded inner)) ct pw = (.error .AccessDenied, sessions)
      ∧ credential_primary_init_totp sessions
          (.sealed (.decoded inner)) ct totp = (.error .AccessDenied, sessions)
      ∧ credential_primary_check_totp verify sessions
          (.sealed (.decoded inner)) ct chal label
          = (.error .AccessDenied, sessions)
      ∧ credential_primary_accept_sha1_totp sessions
          (.sealed (.decoded inner)) ct = (.error .AccessDenied, sessions)
      ∧ credential_primary_remove_totp sessions
          (.sealed (.decoded inner)) ct label
          = (.error .AccessDenied, sessions)
      ∧ credential_primary_init_backup_codes sessions
          (.sealed (.decoded inner)) ct codes
          = (.error .AccessDenied, sessions)
      ∧ credential_primary_remove_backup_codes sessions
          (.sealed (.decoded inner)) ct = (.error .AccessDenied, sessions)
      ∧ credential_primary_delete sessions
          (.sealed (.decoded inner)) ct = (.error .AccessDenied, sessions))
    ∧ (session.passkeys_can_edit = false →
      credential_passkey_init ws sessions
          (.sealed (.decoded inner)) ct = (.error .AccessDenied, sessions)
      ∧ credential_passkey_finish wf nu sessions
          (.sealed (.decoded inner)) ct label
          = (.error .AccessDenied, sessions)
      ∧ credential_passkey_remove sessions
          (.sealed (.decoded inner)) ct u = (.error .AccessDenied, sessions))
    ∧ credential_update_cancel_mfareg sessions
        (.sealed (.decoded inner)) ct
      = (.ok (status_from_session { session with mfaregstate := .None }),
         store_set sessions inner.sessionid
           { session with mfaregstate := .None }) := by
  have hg := get_current_session_eq sessions inner ct false session httl hget
  refine ⟨fun hp => ⟨?_, ?_, ?_, ?_, ?_, ?_, ?_, ?_⟩,
          fun hk => ⟨?_, ?_, ?_⟩, ?_⟩
  · simp [credential_primary_set_password, hg, hp]
  · simp [credential_primary_init_totp, hg, hp]
  · simp [credential_primary_check_totp, hg, hp]
  · simp [credential_primary_accept_sha1_totp, hg, hp]
  · simp [credential_primary_remove_totp, hg, hp]
  · simp [credential_primary_init_backup_codes, hg, hp]
  · simp [credential_primary_remove_backup_codes, hg, hp]
  · simp [credential_primary_delete, hg, hp]
  · simp [credential_passkey_init, hg, hk]
  · simp [credential_passkey_finish, hg, hk]
  · simp [credential_passkey_remove, hg, hk]
  · simp [credential_update_cancel_mfareg, hg]

/-- C3 (witness): the permission theorem evaluated on the concrete
session with both bits false. -/
theorem claim_C3_witness :
    credential_primary_set_password demo_env c3_store
        (.sealed (.decoded { sessionid := 900, max_ttl := 900 })) 0 "pw"
      = (.error .AccessDenied, c3_store)
    ∧ credential_passkey_init demo_ws c3_store
        (.sealed (.decoded { sessionid := 900, max_ttl := 900 })) 0
      = (.error .AccessDenied, c3_store)
    ∧ credential_update_cancel_mfareg c3_store
        (.sealed (.decoded { sessionid := 900, max_ttl := 900 })) 0
      = (.ok (status_from_session { c3_session with mfaregstate := .None }),
         store_set c3_store 900 { c3_session with mfaregstate := .None }) := by
  obtain ⟨h1, h2, h3⟩ :=
    claim_C3_amended demo_env demo_verify demo_ws demo_wf 0 c3_store
      { sessionid := 900, max_ttl := 900 } c3_session 0 "pw" "l"
      { secret := 0, algo := .Sha256 } 0 [] 0 (by decide) (by decide)
  exact ⟨(h1 rfl).1, (h2 rfl).1, h3⟩

/-- C4 (counterexample): after the store has pruned the session (at any
real instant at which pruning can fire, the hard TTL has passed), a
status call on the old token returns SessionExpired, not InvalidState:
the TTL check precedes the store lookup. -/
theorem claim_C4_counterexample :
    expire_credential_update_sessions c4_store 901 0 = []
    ∧ credential_update_status []
        (.sealed (.decoded { sessionid := 900, max_ttl := 900 })) 901
      = (.error .SessionExpired, [])
    ∧ OperationError.SessionExpired ≠ OperationError.InvalidState := by
  refine ⟨?_, ?_, ?_⟩ <;> decide

/-- C4 (amended): a session opened at t carries the hard expiry t + 15
min in its token and its identifier; a status call at or after the
expiry fails with SessionExpired; pruning removes every session whose
identifier encodes an instant before the prune time; and a status call
whose caller-supplied time is before the token expiry but whose session
is no longer in the store returns InvalidState. -/
theorem claim_C4_amended :
    (∀ (sessions : SessionStore) (inner : CredentialUpdateSessionTokenInner)
        (ct : Instant), inner.max_ttl ≤ ct →
      credential_update_status sessions (.sealed (.decoded inner)) ct
        = (.error .SessionExpired, sessions))
    ∧ (∀ (sessions : SessionStore)
        (inner : CredentialUpdateSessionTokenInner) (ct : Instant),
        ct < inner.max_ttl → store_get sessions inner.sessionid = none →
      credential_update_status sessions (.sealed (.decoded inner)) ct
        = (.error .InvalidState, sessions))
    ∧ (∀ (sessions : SessionStore) (ct : Instant) (sid : Nat) (id : Uuid),
        id < uuid_from_duration ct sid →
      store_get (expire_credential_update_sessions sessions ct sid) id
        = none)
    ∧ (∀ (st : IdmServerState) (account : Account)
        (perms : CredUpdateSessionPerms) (t : Instant) (tok : SealedToken)
        (stat : CredentialUpdateSessionStatus) (st1 : IdmServerState),
        init_credential_update st account perms t = .ok (tok, stat, st1) →
      tok = .sealed (.decoded
        { sessionid := t + MAXIMUM_CRED_UPDATE_TTL
        , max_ttl := t + MAXIMUM_CRED_UPDATE_TTL })) := by
  refine ⟨?_, ?_, ?_, ?_⟩
  · intro sessions inner ct h
    simp [credential_update_status, get_current_session, open_session_token,
      token_decrypt, token_deserialise, h]
  · intro sessions inner ct h1 h2
    simp [credential_update_status, get_current_session, open_session_token,
      token_decrypt, token_deserialise, not_le.mpr h1, h2]
  · intro sessions ct sid id h
    exact store_get_expire sessions ct sid id h
  · intro st account perms t tok stat st1 h
    simp only [init_credential_update, create_credupdate_session,
      uuid_from_duration] at h
    split at h
    · exact absurd h (by simp)
    · simp only [Except.ok.injEq, Prod.mk.injEq] at h
      exact h.1.symm

/-- C4 (witness): the amended theorem evaluated at t = 0: the expired
status call, the pruning of the stored session, and the InvalidState
result on a not-found session before expiry. -/
theorem claim_C4_witness :
    credential_update_status c4_store
        (.sealed (.decoded { sessionid := 900, max_ttl := 900 })) 900
      = (.error .SessionExpired, c4_store)
    ∧ store_get (expire_credential_update_sessions c4_store 901 0) 900
      = none
    ∧ credential_update_status []
        (.sealed (.decoded { sessionid := 900, max_ttl := 900 })) 0
      = (.error .InvalidState, []) := by
  obtain ⟨h1, h2, h3, _⟩ := claim_C4_amended
  exact ⟨h1 c4_store { sessionid := 900, max_ttl := 900 } 900 (by decide),
         h3 c4_store 901 0 900 (by decide),
         h2 [] { sessionid := 900, max_ttl := 900 } 0 (by decide) rfl⟩

/-- C5 (counterexample): in sub-state TotpInit with no primary
credential, a check-TOTP call whose code fails both verifications does
not return InvalidState: it succeeds and transitions to TotpTryAgain.
The primary-existence requirement applies only to the verifying branch. -/
theorem claim_C5_counterexample :
    c5_session.primary = none
    ∧ credential_primary_check_totp demo_verify c5_store
        (.sealed (.decoded { sessionid := 900, max_ttl := 900 })) 0 23 "t"
      = (.ok (status_from_session c5_session1),
         store_set c5_store 900 c5_session1)
    ∧ (Except.ok (status_from_session c5_session1)
        : Except OperationError CredentialUpdateSessionStatus)
      ≠ .error .InvalidState := by
  refine ⟨rfl, ?_, ?_⟩ <;> decide

/-- C5 (amended): check-TOTP in sub-state TotpInit, TotpTryAgain or
TotpInvalidSha1: when the code verifies against the current secret the
primary credential must exist (else InvalidState) and the TOTP is
attached under the label with the sub-state cleared; when it fails the
current secret but verifies against the SHA-1 downgrade, the sub-state
becomes TotpInvalidSha1(secret, sha1, label); otherwise TotpTryAgain.
The failing branches do not require the primary to exist. -/
theorem claim_C5_amended (verify : TotpVerify) (sessions : SessionStore)
    (inner : CredentialUpdateSessionTokenInner)
    (session : CredentialUpdateSession) (ct : Instant) (chal : Nat)
    (label : String) (s : Totp)
    (httl : ct < inner.max_ttl)
    (hget : store_get sessions inner.sessionid = some (false, session))
    (hperm : session.primary_can_edit = true)
    (hstate : session.mfaregstate = .TotpInit s
      ∨ session.mfaregstate = .TotpTryAgain s
      ∨ ∃ s1 l0, session.mfaregstate = .TotpInvalidSha1 s s1 l0) :
    (verify s chal ct = true → session.primary = none →
      credential_primary_check_totp verify sessions
          (.sealed (.decoded inner)) ct chal label
        = (.error .InvalidState, sessions))
    ∧ (∀ c, verify s chal ct = true → session.primary = some c →
      credential_primary_check_totp verify sessions
          (.sealed (.decoded inner)) ct chal label
        = (.ok (status_from_session
              { session with primary := some (c.append_totp label s)
                           , mfaregstate := .None }),
           store_set sessions inner.sessionid
              { session with primary := some (c.append_totp label s)
                           , mfaregstate := .None }))
    ∧ (verify s chal ct = false →
        verify s.downgrade_to_legacy chal ct = true →
      credential_primary_check_totp verify sessions
          (.sealed (.decoded inner)) ct chal label
        = (.ok (status_from_session
              { session with mfaregstate :=
                  (.TotpInvalidSha1 s s.downgrade_to_legacy label) }),
           store_set sessions inner.sessionid
              { session with mfaregstate :=
                  (.TotpInvalidSha1 s s.downgrade_to_legacy label) }))
    ∧ (verify s chal ct = false →
        verify s.downgrade_to_legacy chal ct = false →
      credential_primary_check_totp verify sessions
          (.sealed (.decoded inner)) ct chal label
        = (.ok (status_from_session
              { session with mfaregstate := (.TotpTryAgain s) }),
           store_set sessions inner.sessionid
              { session with mfaregstate := (.TotpTryAgain s) })) := by
  have hg := get_current_session_eq sessions inner ct false session httl hget
  refine ⟨?_, ?_, ?_, ?_⟩
  · intro hv hp
    rcases hstate with h | h | ⟨s1, l0, h⟩ <;>
      simp [credential_primary_check_totp, hg, hperm, h, hv, hp]
  · intro c hv hp
    rcases hstate with h | h | ⟨s1, l0, h⟩ <;>
      simp [credential_primary_check_totp, hg, hperm, h, hv, hp]
  · intro hv1 hv2
    rcases hstate with h | h | ⟨s1, l0, h⟩ <;>
      simp [credential_primary_check_totp, hg, hperm, h, hv1, hv2]
  · intro hv1 hv2
    rcases hstate with h | h | ⟨s1, l0, h⟩ <;>
      simp [credential_primary_check_totp, hg, hperm, h, hv1, hv2]

/-- C5 (witness): the verifying branch on a session holding a primary
stub: the TOTP is attached and the sub-state cleared. -/
theorem claim_C5_witness :
    credential_primary_check_totp demo_verify_true c5b_store
        (.sealed (.decoded { sessionid := 900, max_ttl := 900 })) 0 23 "t"
      = (.ok (status_from_session
            { c5b_session with
                primary := some (demo_cred.append_totp "t"
                  { secret := 5, algo := .Sha256 })
              , mfaregstate := .None }),
         store_set c5b_store 900
            { c5b_session with
                primary := some (demo_cred.append_totp "t"
                  { secret := 5, algo := .Sha256 })
              , mfaregstate := .None }) := by
  obtain ⟨_, h2, _, _⟩ :=
    claim_C5_amended demo_verify_true c5b_store
      { sessionid := 900, max_ttl := 900 } c5b_session 0 23 "t"
      { secret := 5, algo := .Sha256 } (by decide) (by decide) (by decide)
      (Or.inl (by decide))
  exact h2 demo_cred rfl rfl

theorem tok_lookup_upsert_bool (l : List (String × IntentTokenState))
    (k : String) (v : IntentTokenState) :
    tok_lookup (l.filter (fun kv => !decide (kv.1 = k)) ++ [(k, v)]) k
      = some v := by
  simpa using tok_lookup_upsert l k v

theorem apply_modlist_append (a : Account) (ml1 ml2 : List Modify) :
    apply_modlist a (ml1 ++ ml2) = apply_modlist (apply_modlist a ml1) ml2 :=
  List.foldl_append apply_modify a ml1 ml2

theorem tokens_foldl_present_passkeys (pk : List (Uuid × String × Nat)) :
    ∀ a : Account,
      (List.foldl apply_modify a
          (pk.map (fun kv =>
            Modify.PresentPasskey kv.1 kv.2.1 kv.2.2))).credential_update_intent_tokens
        = a.credential_update_intent_tokens := by
  induction pk with
  | nil => intro a; rfl
  | cons kv rest ih =>
    intro a
    rw [List.map_cons, List.foldl_cons, ih]
    rfl

theorem exchange_proceed_ok (st : IdmServerState) (intent_id : String)
    (account : Account) (mt : Instant) (perms : CredUpdateSessionPerms)
    (ct : Instant)
    (hsync : account.sync_parent_uuid = none)
    (huuid : internal_search_uuid st.db account.uuid = some account) :
    ∃ stat st1,
      exchange_proceed st intent_id account mt perms ct
        = .ok (.sealed (.decoded
            { sessionid := ct + MAXIMUM_CRED_UPDATE_TTL
            , max_ttl := ct + MAXIMUM_CRED_UPDATE_TTL }), stat, st1)
      ∧ (internal_search_uuid st1.db account.uuid).map
          (fun a1 => tok_lookup a1.credential_update_intent_tokens intent_id)
        = some (some (.InProgress mt perms
            (ct + MAXIMUM_CRED_UPDATE_TTL) (ct + MAXIMUM_CRED_UPDATE_TTL))) := by
  simp only [exchange_proceed, create_credupdate_session,
    uuid_from_duration, hsync]
  refine ⟨_, _, rfl, ?_⟩
  rw [internal_search_uuid_modify, huuid]
  simp only [Option.map_some']
  rw [show ∀ a0 : Account, apply_modlist a0
      [Modify.RemovedIntentToken intent_id,
       Modify.PresentIntentToken intent_id
         (.InProgress mt perms (ct + MAXIMUM_CRED_UPDATE_TTL)
           (ct + MAXIMUM_CRED_UPDATE_TTL))]
      = apply_modify (apply_modify a0 (Modify.RemovedIntentToken intent_id))
          (Modify.PresentIntentToken intent_id
            (.InProgress mt perms (ct + MAXIMUM_CRED_UPDATE_TTL)
              (ct + MAXIMUM_CRED_UPDATE_TTL)))
    from fun _ => rfl]
  simp only [apply_modify]
  rw [tok_lookup_upsert]

/-- C6: the exchange of an intent identifier: zero matching entries give
Wait(now + 150 s); multiple matching entries give InvalidState; a
Consumed grant gives SessionExpired; a Valid grant at or past its expiry
gives SessionExpired; a Valid unexpired grant, and an InProgress grant
unconditionally, proceed and move the grant to InProgress carrying the
new session id and the session expiry now + 15 min. -/
theorem claim_C6 (st : IdmServerState) (intent_id : String) (ct : Instant) :
    (internal_search_intent st.db intent_id = [] →
      exchange_intent_credential_update st intent_id ct
        = .error (.Wait (ct + 150)))
    ∧ (∀ (a b : Account) (rest : List Account),
        internal_search_intent st.db intent_id = a :: b :: rest →
      exchange_intent_credential_update st intent_id ct
        = .error .InvalidState)
    ∧ (∀ (account : Account) (mt : Instant),
        internal_search_intent st.db intent_id = [account] →
        tok_lookup account.credential_update_intent_tokens intent_id
          = some (.Consumed mt) →
      exchange_intent_credential_update st intent_id ct
        = .error .SessionExpired)
    ∧ (∀ (account : Account) (mt : Instant)
        (perms : CredUpdateSessionPerms),
        internal_search_intent st.db intent_id = [account] →
        tok_lookup account.credential_update_intent_tokens intent_id
          = some (.Valid mt perms) →
        mt ≤ ct →
      exchange_intent_credential_update st intent_id ct
        = .error .SessionExpired)
    ∧ (∀ (account : Account),
        internal_search_intent st.db intent_id = [account] →
        tok_lookup account.credential_update_intent_tokens intent_id
          = none →
      exchange_intent_credential_update st intent_id ct
        = .error .InvalidState)
    ∧ (∀ (account : Account) (mt : Instant)
        (perms : CredUpdateSessionPerms),
        internal_search_intent st.db intent_id = [account] →
        tok_lookup account.credential_update_intent_tokens intent_id
          = some (.Valid mt perms) →
        ct < mt →
        account.sync_parent_uuid = none →
        internal_search_uuid st.db account.uuid = some account →
      ∃ stat st1,
        exchange_intent_credential_update st intent_id ct
          = .ok (.sealed (.decoded
              { sessionid := ct + MAXIMUM_CRED_UPDATE_TTL
              , max_ttl := ct + MAXIMUM_CRED_UPDATE_TTL }), stat, st1)
        ∧ (internal_search_uuid st1.db account.uuid).map
            (fun a1 =>
              tok_lookup a1.credential_update_intent_tokens intent_id)
          = some (some (.InProgress mt perms
              (ct + MAXIMUM_CRED_UPDATE_TTL)
              (ct + MAXIMUM_CRED_UPDATE_TTL))))
    ∧ (∀ (account : Account) (mt : Instant)
        (perms : CredUpdateSessionPerms) (sid0 : Uuid) (sttl : Instant),
        internal_search_intent st.db intent_id = [account] →
        tok_lookup account.credential_update_intent_tokens intent_id
          = some (.InProgress mt perms sid0 sttl) →
        account.sync_parent_uuid = none →
        internal_search_uuid st.db account.uuid = some account →
      ∃ stat st1,
        exchange_intent_credential_update st intent_id ct
          = .ok (.sealed (.decoded
              { sessionid := ct + MAXIMUM_CRED_UPDATE_TTL
              , max_ttl := ct + MAXIMUM_CRED_UPDATE_TTL }), stat, st1)
        ∧ (internal_search_uuid st1.db account.uuid).map
            (fun a1 =>
              tok_lookup a1.credential_update_intent_tokens intent_id)
          = some (some (.InProgress mt perms
              (ct + MAXIMUM_CRED_UPDATE_TTL)
              (ct + MAXIMUM_CRED_UPDATE_TTL)))) := by
  refine ⟨?_, ?_, ?_, ?_, ?_, ?_, ?_⟩
  · intro h
    simp only [exchange_intent_credential_update, h]
  · intro a b rest h
    simp only [exchange_intent_credential_update, h]
  · intro account mt h hl
    simp only [exchange_intent_credential_update, h, hl]
  · intro account mt perms h hl hle
    simp only [exchange_intent_credential_update, h, hl]
    rw [if_pos hle]
  · intro account h hl
    simp only [exchange_intent_credential_update, h, hl]
  · intro account mt perms h hl hlt hsync huuid
    have hnge : ¬ ct ≥ mt := not_le.mpr hlt
    simp only [exchange_intent_credential_update, h, hl]
    rw [if_neg hnge]
    exact exchange_proceed_ok st intent_id account mt perms ct hsync huuid
  · intro account mt perms sid0 sttl h hl hsync huuid
    simp only [exchange_intent_credential_update, h, hl]
    exact exchange_proceed_ok st intent_id account mt perms ct hsync huuid

/-- C6 (witness): the Wait branch on an empty database. -/
theorem claim_C6_witness :
    exchange_intent_credential_update demo_st "tok" 5
      = .error (.Wait (5 + 150)) :=
  (claim_C6 demo_st "tok" 5).1 rfl

/-- C8: commit of a session carrying an intent identifier: it succeeds
only when the account's grant is InProgress with the committing
session's id, in which case the grant becomes Consumed; any other grant
state (mismatched session id, Consumed, Valid, absent) fails with
InvalidState. On the concrete double-exchange run (sessions A then B of
the same intent), committing A fails with InvalidState and committing B
succeeds. -/
theorem claim_C8 (st : IdmServerState)
    (inner : CredentialUpdateSessionTokenInner)
    (session : CredentialUpdateSession) (ct : Instant) (iid : String)
    (account : Account)
    (httl : ct < inner.max_ttl)
    (hget : store_get st.cred_update_sessions inner.sessionid
              = some (false, session))
    (hiid : session.intent_token_id = some iid)
    (hacc : internal_search_uuid st.db session.account.uuid = some account) :
    (∀ (mt : Instant) (perms : CredUpdateSessionPerms) (sid0 : Uuid)
        (sttl : Instant),
        tok_lookup account.credential_update_intent_tokens iid
          = some (.InProgress mt perms sid0 sttl) →
        sid0 ≠ inner.sessionid →
      commit_credential_update st (.sealed (.decoded inner)) ct
        = .error .InvalidState)
    ∧ (∀ mt : Instant,
        tok_lookup account.credential_update_intent_tokens iid
          = some (.Consumed mt) →
      commit_credential_update st (.sealed (.decoded inner)) ct
        = .error .InvalidState)
    ∧ (∀ (mt : Instant) (perms : CredUpdateSessionPerms),
        tok_lookup account.credential_update_intent_tokens iid
          = some (.Valid mt perms) →
      commit_credential_update st (.sealed (.decoded inner)) ct
        = .error .InvalidState)
    ∧ (tok_lookup account.credential_update_intent_tokens iid = none →
      commit_credential_update st (.sealed (.decoded inner)) ct
        = .error .InvalidState)
    ∧ (∀ (mt : Instant) (perms : CredUpdateSessionPerms) (sttl : Instant),
        tok_lookup account.credential_update_intent_tokens iid
          = some (.InProgress mt perms inner.sessionid sttl) →
      ∃ stf ml,
        commit_credential_update st (.sealed (.decoded inner)) ct
          = .ok (stf, ml)
        ∧ (internal_search_uuid stf.db session.account.uuid).map
            (fun a1 => tok_lookup a1.credential_update_intent_tokens iid)
          = some (some (.Consumed mt)))
    ∧ commit_credential_update c8_stB c8_tokA 6002 = .error .InvalidState
    ∧ (commit_credential_update c8_stB c8_tokB 6002).isOk = true := by
  have hc := commit_common_eq st inner ct session httl hget
  refine ⟨?_, ?_, ?_, ?_, ?_, by decide, by decide⟩
  · intro mt perms sid0 sttl hl hne
    simp [commit_credential_update, hc, CredentialUpdateSession.can_commit,
      hiid, hacc, hl, hne]
  · intro mt hl
    simp [commit_credential_update, hc, CredentialUpdateSession.can_commit,
      hiid, hacc, hl]
  · intro mt perms hl
    simp [commit_credential_update, hc, CredentialUpdateSession.can_commit,
      hiid, hacc, hl]
  · intro hl
    simp [commit_credential_update, hc, CredentialUpdateSession.can_commit,
      hiid, hacc, hl]
  · intro mt perms sttl hl
    simp only [commit_credential_update, hc]
    simp [CredentialUpdateSession.can_commit, hiid, hacc, hl]
    rcases hp : session.primary_can_edit <;>
      rcases hk : session.passkeys_can_edit <;>
      rcases hpr : session.primary with _ | c <;>
      simp [hp, hk, hpr, internal_search_uuid_modify, hacc, apply_modlist,
        List.foldl_cons, apply_modify, tokens_foldl_present_passkeys] <;>
      exact tok_lookup_upsert_bool _ _ _

/-- C8 (witness): committing session A after the intent was exchanged a
second time fails with InvalidState (grant pinned to session B). -/
theorem claim_C8_witness :
    commit_credential_update c8_stB
        (.sealed (.decoded { sessionid := 6900, max_ttl := 6900 })) 6002
      = .error .InvalidState := by
  obtain ⟨h1, _⟩ :=
    claim_C8 c8_stB { sessionid := 6900, max_ttl := 6900 } c8_sessA 6002
      "tok" c8_entryB (by decide) (by decide) (by decide) (by decide)
  exact h1 6300 demo_perms_primary 6901 6901 (by decide) (by decide)

/-- C9: a successful cancel leaves the account's credential attributes
(primary and passkeys) unchanged; when the session carried an intent the
grant moves from InProgress back to Valid with its original expiry and
permissions; with no intent the account store is untouched. -/
theorem claim_C9 (st : IdmServerState)
    (inner : CredentialUpdateSessionTokenInner)
    (session : CredentialUpdateSession) (ct : Instant)
    (httl : ct < inner.max_ttl)
    (hget : store_get st.cred_update_sessions inner.sessionid
              = some (false, session)) :
    (session.intent_token_id = none →
      ∃ stf,
        cancel_credential_update st (.sealed (.decoded inner)) ct
          = .ok (stf, [])
        ∧ stf.db = st.db)
    ∧ (∀ (iid : String) (account : Account) (mt : Instant)
        (perms : CredUpdateSessionPerms) (sttl : Instant),
        session.intent_token_id = some iid →
        internal_search_uuid st.db session.account.uuid = some account →
        tok_lookup account.credential_update_intent_tokens iid
          = some (.InProgress mt perms inner.sessionid sttl) →
      ∃ stf ml,
        cancel_credential_update st (.sealed (.decoded inner)) ct
          = .ok (stf, ml)
        ∧ (internal_search_uuid stf.db session.account.uuid).map
            (fun a1 => (a1.primary, a1.passkeys,
              tok_lookup a1.credential_update_intent_tokens iid))
          = some (account.primary, account.passkeys,
              some (.Valid mt perms))) := by
  have hc := commit_common_eq st inner ct session httl hget
  constructor
  · intro hi
    simp [cancel_credential_update, hc, hi]
  · intro iid account mt perms sttl hi hacc hl
    simp [cancel_credential_update, hc, hi, hacc, hl,
      internal_search_uuid_modify, apply_modlist, List.foldl_cons,
      apply_modify]
    exact tok_lookup_upsert_bool _ _ _

/-- C9 (witness): cancelling the concrete session restores the grant to
Valid and leaves the credential attributes of the account unchanged. -/
theorem claim_C9_witness :
    ∃ stf ml,
      cancel_credential_update c9_st
          (.sealed (.decoded { sessionid := 900, max_ttl := 900 })) 0
        = .ok (stf, ml)
      ∧ (internal_search_uuid stf.db c9_session.account.uuid).map
          (fun a1 => (a1.primary, a1.passkeys,
            tok_lookup a1.credential_update_intent_tokens "tok"))
        = some (c9_account.primary, c9_account.passkeys,
            some (.Valid 6300 demo_perms_primary)) := by
  obtain ⟨_, h2⟩ :=
    claim_C9 c9_st { sessionid := 900, max_ttl := 900 } c9_session 0
      (by decide) (by decide)
  exact h2 "tok" c9_account 6300 demo_perms_primary 900 (by decide)
    (by decide) (by decide)

/-- C10: the backup-code operations have no MFA sub-state precondition
and never touch the stored sub-state: with the primary edit bit set,
init/remove backup codes behave the same in every sub-state, the stored
record's mfaregstate is unchanged by them, the plaintext codes are
overlaid only on the returned status of the init call, and the status
projection of a stored record never shows the BackupCodes variant. -/
theorem claim_C10 (sessions : SessionStore)
    (inner : CredentialUpdateSessionTokenInner)
    (session : CredentialUpdateSession) (ct : Instant)
    (codes : List String)
    (httl : ct < inner.max_ttl)
    (hget : store_get sessions inner.sessionid = some (false, session))
    (hperm : session.primary_can_edit = true) :
    (session.primary = none →
      credential_primary_init_backup_codes sessions
          (.sealed (.decoded inner)) ct codes
        = (.error .InvalidState, sessions)
      ∧ credential_primary_remove_backup_codes sessions
          (.sealed (.decoded inner)) ct
        = (.error .InvalidState, sessions))
    ∧ (∀ c : Credential, session.primary = some c → c.totps = [] →
      credential_primary_init_backup_codes sessions
          (.sealed (.decoded inner)) ct codes
        = (.error .InvalidState, sessions))
    ∧ (∀ c : Credential, session.primary = some c → c.totps ≠ [] →
      credential_primary_init_backup_codes sessions
          (.sealed (.decoded inner)) ct codes
        = (.ok { (status_from_session
              { session with primary :=
                  (some { c with backup_codes := some codes }) }) with
              mfaregstate := .BackupCodes codes },
           store_set sessions inner.sessionid
              { session with primary :=
                  (some { c with backup_codes := some codes }) })
      ∧ CredentialUpdateSession.mfaregstate
          { session with primary := (some { c with backup_codes := some codes }) }
        = session.mfaregstate)
    ∧ (∀ c : Credential, session.primary = some c → c.backup_codes = none →
      credential_primary_remove_backup_codes sessions
          (.sealed (.decoded inner)) ct
        = (.error .InvalidState, sessions))
    ∧ (∀ (c : Credential) (bc : List String),
        session.primary = some c → c.backup_codes = some bc →
      credential_primary_remove_backup_codes sessions
          (.sealed (.decoded inner)) ct
        = (.ok (status_from_session
              { session with primary :=
                  (some { c with backup_codes := none }) }),
           store_set sessions inner.sessionid
              { session with primary :=
                  (some { c with backup_codes := none }) })
      ∧ CredentialUpdateSession.mfaregstate
          { session with primary := (some { c with backup_codes := none }) }
        = session.mfaregstate)
    ∧ (∀ (s : CredentialUpdateSession) (cs : List String),
      (status_from_session s).mfaregstate ≠ .BackupCodes cs) := by
  have hg := get_current_session_eq sessions inner ct false session httl hget
  refine ⟨fun hpr => ⟨?_, ?_⟩, ?_, ?_, ?_, ?_, ?_⟩
  · simp [credential_primary_init_backup_codes, hg, hperm, hpr]
  · simp [credential_primary_remove_backup_codes, hg, hperm, hpr]
  · intro c hpr ht
    simp [credential_primary_init_backup_codes, hg, hperm, hpr,
      Credential.update_backup_code, ht]
  · intro c hpr ht
    refine ⟨?_, rfl⟩
    simp [credential_primary_init_backup_codes, hg, hperm, hpr,
      Credential.update_backup_code, ht]
  · intro c hpr hb
    simp [credential_primary_remove_backup_codes, hg, hperm, hpr,
      Credential.remove_backup_code, hb]
  · intro c bc hpr hb
    refine ⟨?_, rfl⟩
    simp [credential_primary_remove_backup_codes, hg, hperm, hpr,
      Credential.remove_backup_code, hb]
  · intro s cs
    rcases hm : s.mfaregstate <;> simp [status_from_session, hm]

/-- C10 (witness): initialising backup codes mid TOTP ceremony succeeds,
overlays the codes on the returned status only, and preserves the
stored sub-state. -/
theorem claim_C10_witness :
    credential_primary_init_backup_codes c10_store
        (.sealed (.decoded { sessionid := 900, max_ttl := 900 })) 0
        ["one", "two"]
      = (.ok { (status_from_session
            { c10_session with primary :=
                (some { c10_cred with backup_codes := some ["one", "two"] }) }) with
            mfaregstate := .BackupCodes ["one", "two"] },
         store_set c10_store 900
            { c10_session with primary :=
                (some { c10_cred with backup_codes := some ["one", "two"] }) })
    ∧ CredentialUpdateSession.mfaregstate
        { c10_session with primary :=
            (some { c10_cred with backup_codes := some ["one", "two"] }) }
      = c10_session.mfaregstate := by
  obtain ⟨_, _, h3, _, _, _⟩ :=
    claim_C10 c10_store { sessionid := 900, max_ttl := 900 } c10_session 0
      ["one", "two"] (by decide) (by decide) (by decide)
  exact h3 c10_cred rfl (by decide)

end CredUpdate
